import Mathlib

set_option maxRecDepth 4000

/-!
Shallow embedding of the MP4 transcriber repository: `transcribe.py`
(the single-shot command-line script) and
`transcriberApp/WhisperTranscriber.py` (the Tk desktop app whose
`TranscriberWorker` thread consumes file paths from a `queue.Queue`).

External collaborators (the whisper model, torch, ffmpeg and ffprobe, the
file system, the wall clock, and the Tk output-directory variable) are
modelled as fields of an environment record; the control flow of the
Python source is translated statement by statement, including the
`task_done` bookkeeping of `queue.Queue` (a `task_done` call on a queue
whose unfinished count is already zero raises `ValueError`, before
touching the counter).  Paths are modelled in their POSIX form (the
`os.path` separator is a slash).  Wall-clock readings (the elapsed-time
suffix of the completion message, the cosmetic progress estimate from
`media_duration_seconds`) are not observable in the embedding; timestamps
used in output file names are supplied by the environment.
-/

/-! ## Python string and path helpers -/

/-- Whitespace test used by `str.strip`. -/
def pyWS (c : Char) : Bool := c.isWhitespace

/-- Python `str.strip()`: remove leading and trailing whitespace. -/
def pyStrip (s : String) : String :=
  String.mk (((s.data.dropWhile pyWS).reverse.dropWhile pyWS).reverse)

/-- `os.path.basename` (POSIX): the part after the last slash. -/
def basename (p : String) : String :=
  String.mk ((p.data.reverse.takeWhile (fun c => c ≠ '/')).reverse)

/-- `os.path.dirname` (POSIX): everything up to the last slash, with
trailing slashes removed unless the head is made of slashes only. -/
def dirname (p : String) : String :=
  let rev := p.data.reverse
  let tail := rev.takeWhile (fun c => c ≠ '/')
  let headRev := rev.drop tail.length
  if headRev ≠ [] ∧ headRev.any (fun c => c ≠ '/') then
    String.mk (headRev.dropWhile (fun c => c = '/')).reverse
  else
    String.mk headRev.reverse

/-- `os.path.join(a, b)` (POSIX, two arguments). -/
def path_join (a b : String) : String :=
  if b.data.head? = some '/' then b
  else if a = "" ∨ a.data.getLast? = some '/' then a ++ b
  else a ++ "/" ++ b

/-- The root returned by `os.path.splitext` for a file name that contains
no separator (the shape `safe_stem` feeds it): cut at the last dot,
unless every character in front of that dot is itself a dot. -/
def splitext_stem (name : String) : String :=
  let l := name.data
  let ext := l.reverse.takeWhile (fun c => c ≠ '.')
  if ext.length = l.length then name
  else
    let stem := l.take (l.length - ext.length - 1)
    if stem.any (fun c => c ≠ '.') then String.mk stem else name

/-- `safe_stem` (identical in both source files): the stem of the base
name, `_transcript_`, and a `datetime.now().strftime` timestamp, which
the embedding receives from the environment. -/
def safe_stem (path ts : String) : String :=
  splitext_stem (basename path) ++ "_transcript_" ++ ts

/-! ## The `queue.Queue` counter

`queue.Queue.put` increments the unfinished-task counter, `task_done`
decrements it, and `join` blocks until it is zero.  CPython raises
`ValueError` from `task_done` when the counter is already zero, before
any mutation. -/

/-- `queue.Queue.task_done`: `none` models the raised `ValueError`. -/
def task_done (unfinished : Nat) : Option Nat :=
  if unfinished = 0 then none else some (unfinished - 1)

/-- CPython message of the `ValueError` raised by an extra `task_done`. -/
def taskDoneErrText : String := "task_done() called too many times"

/-! ## Status messages

`TranscriberWorker` posts status strings through `on_update`; the app
appends them to the results pane in posting order (`on_update_safe`
marshals through `after(0, ...)`, which preserves order).  The messages
are modelled structurally; the constructor comments quote the source
format strings. -/

/-- One `on_update` message of `TranscriberWorker`. -/
inductive Msg : Type where
  /-- `[Whisper] Loading model: ... on ... ...` (line 74). -/
  | loading (modelName device : String)
  /-- `[Skip] Not found: ...` (line 93). -/
  | skip (path : String)
  /-- `[Error] Missing dependencies. / Install with: pip install -U openai-whisper torch tkinterdnd2` (lines 102-105). -/
  | errDeps
  /-- the bare `str(e)` detail line that follows it (line 106). -/
  | errDetail (text : String)
  /-- `[Transcribing] ...` with the base name (line 117). -/
  | transcribing (base : String)
  /-- `[Done] -> ...  (...s)` with the transcript path; the elapsed
  wall-clock suffix is not modelled (line 134). -/
  | done (txt_path : String)
  /-- `[Error] ...` with the exception text (lines 83 and 137). -/
  | error (text : String)
deriving DecidableEq, Repr

/-- A terminal status message for one work item: skip, done, or the
`[Error]`-prefixed reports (the dependency report of the failed lazy
initialization, and the per-item exception report). -/
def Msg.isTerminal : Msg → Bool
  | Msg.skip _ => true
  | Msg.done _ => true
  | Msg.error _ => true
  | Msg.errDeps => true
  | _ => false

/-! ## The worker environment and state -/

/-- Everything `TranscriberWorker.run` observes from outside: the file
system, the ffmpeg probe, the whisper/torch import and model load, the
`model.transcribe` call, the Tk output-directory variable, and the
timestamp clock.  Attempt-indexed fields describe the outcome of the
k-th `_lazy_init` call; item-indexed fields are read at the processing
step of the i-th dequeued item (the Tk variable is live, so its value
may differ between items). -/
structure WorkerEnv : Type where
  /-- `os.path.exists` (line 92). -/
  pathExists : String → Bool
  /-- `shutil.which` finds both `ffmpeg` and `ffprobe` (line 23). -/
  ffmpegOk : Bool
  /-- `torch.cuda.is_available()` (line 72). -/
  cudaAvailable : Bool
  /-- `os.environ.get("WHISPER_MODEL", "base")` (line 73). -/
  modelName : String
  /-- whether the k-th `_lazy_init` attempt succeeds. -/
  initOk : Nat → Bool
  /-- a failed k-th attempt raised inside `whisper.load_model`, after
  the loading message of line 74, rather than at the imports. -/
  initFailAfterLoadMsg : Nat → Bool
  /-- `str(e)` for the failed k-th attempt. -/
  initErr : Nat → String
  /-- `self._model.transcribe(path, ...)` at step i: an exception text,
  or the result dictionary's optional `text` entry (`result.get`). -/
  transcribe : Nat → String → Except String (Option String)
  /-- `self.outdir_var.get()` at step i (the `get_outdir` closure built
  in `App.__init__` strips it). -/
  outdirVar : Nat → String
  /-- `datetime.now().strftime("%Y%m%d_%H%M%S")` at step i. -/
  timestamp : Nat → String
  /-- `os.makedirs(outdir, exist_ok=True)` succeeds for this directory. -/
  makedirsOk : String → Bool
  /-- `str(e)` when `os.makedirs` raises for this directory. -/
  makedirsErr : String → String

/-- The observable state of the worker session: the queue's
unfinished-task counter, the lazily created model handle (the attempt
index at which it was constructed), the number of `_lazy_init` calls so
far, whether the worker thread is still alive, the posted status
messages, the log of transcript writes, and the index of the next item
processing step. -/
structure WorkerState : Type where
  unfinished : Nat
  model : Option Nat
  initAttempts : Nat
  alive : Bool
  messages : List Msg
  files : List (String × String)
  itemIdx : Nat
deriving DecidableEq, Repr

/-- `queue.Queue.join` returns exactly when the counter is zero. -/
def join_would_return (s : WorkerState) : Bool := s.unfinished == 0

/-- The device string computed by `_lazy_init` (line 72). -/
def device (env : WorkerEnv) : String :=
  if env.cudaAvailable then "cuda" else "cpu"

/-- Line 110 of the worker: the output directory is the stripped Tk
variable when non-empty (`or` on strings), else the directory of the
input path; the variable is read fresh for every item. -/
def pick_outdir (env : WorkerEnv) (i : Nat) (path : String) : String :=
  let g := pyStrip (env.outdirVar i)
  if g = "" then dirname path else g

/-- The `finally` of line 139: mark the item done.  When the counter is
already zero the extra `task_done` raises `ValueError` inside `finally`;
nothing above `run` catches it, so the worker thread dies. -/
def finish_item (s : WorkerState) (i : Nat) : WorkerState :=
  match task_done s.unfinished with
  | some u => { s with unfinished := u, itemIdx := i + 1 }
  | none => { s with alive := false, itemIdx := i + 1 }

/-- Lines 110-134 of `TranscriberWorker.run`, reached with a usable
model handle: choose the output directory, create it, post the
transcribing message, run the model, write the transcript (the stripped
`text` entry plus one newline, UTF-8), post the completion message; any
exception is caught at line 136 and posted as an `[Error]` message; the
`finally` of line 139 runs in every case. -/
def process_media (env : WorkerEnv) (s : WorkerState) (path : String) (i : Nat) :
    WorkerState :=
  let outdir := pick_outdir env i path
  if env.makedirsOk outdir = false then
    finish_item
      { s with messages := s.messages ++ [Msg.error (env.makedirsErr outdir)] } i
  else
    let s := { s with messages := s.messages ++ [Msg.transcribing (basename path)] }
    match env.transcribe i path with
    | Except.error e =>
        finish_item { s with messages := s.messages ++ [Msg.error e] } i
    | Except.ok r =>
        let txt_path := path_join outdir (safe_stem path (env.timestamp i)) ++ ".txt"
        let content := pyStrip (r.getD "") ++ "\n"
        finish_item
          { s with files := s.files ++ [(txt_path, content)],
                   messages := s.messages ++ [Msg.done txt_path] } i

/-- One iteration of the consumer loop of `TranscriberWorker.run`
(lines 86-139) applied to one dequeued `path`.

The nonexistent-path branch (lines 92-95) posts the skip message and
calls a bare `task_done` that no handler protects.  In the
failed-initialization branch (lines 101-108) the `continue` of line 108
sits inside the outer `try`, so the `finally` of line 139 runs as well
and `task_done` is executed twice for the same item: the first extra
call raises inside the handler chain and is caught at line 136 (posting
the `ValueError` text), after which the `finally` raises again and kills
the thread; when the counter was exactly one, the line-107 call brings
it to zero and the `finally` call raises and kills the thread. -/
def worker_step (env : WorkerEnv) (s : WorkerState) (path : String) : WorkerState :=
  let i := s.itemIdx
  if env.pathExists path = false then
    let s := { s with messages := s.messages ++ [Msg.skip path] }
    match task_done s.unfinished with
    | some u => { s with unfinished := u, itemIdx := i + 1 }
    | none => { s with alive := false, itemIdx := i + 1 }
  else
    match s.model with
    | some _ => process_media env s path i
    | none =>
        let k := s.initAttempts
        if env.initOk k then
          process_media env
            { s with
              messages := s.messages ++ [Msg.loading env.modelName (device env)],
              model := some k, initAttempts := k + 1 } path i
        else
          let pre :=
            if env.initFailAfterLoadMsg k then
              [Msg.loading env.modelName (device env)]
            else []
          let s := { s with
                     messages :=
                       s.messages ++ pre ++ [Msg.errDeps, Msg.errDetail (env.initErr k)],
                     initAttempts := k + 1 }
          if s.unfinished = 0 then
            { s with messages := s.messages ++ [Msg.error taskDoneErrText],
                     alive := false, itemIdx := i + 1 }
          else if s.unfinished = 1 then
            { s with unfinished := 0, alive := false, itemIdx := i + 1 }
          else
            { s with unfinished := s.unfinished - 2, itemIdx := i + 1 }

/-- The worker dequeues a batch of paths in FIFO order (the queue is
FIFO and there is exactly one consumer); consumption stops if the thread
has died, leaving the remaining items unprocessed. -/
def run_batch (env : WorkerEnv) (s : WorkerState) : List String → WorkerState
  | [] => s
  | p :: rest =>
      if s.alive then run_batch env (worker_step env s p) rest else s

/-- Source text of the `ensure_ffmpeg` error in the app (lines 24-27). -/
def ffmpegAppErrText : String :=
  "FFmpeg/FFprobe not found.\n\nInstall FFmpeg and add its \x27bin\x27 to PATH so \x27ffmpeg\x27 and \x27ffprobe\x27 work."

/-- `TranscriberWorker.run` (lines 78-139): the ffmpeg check of lines
80-84 posts one error and returns when the binaries are missing, else
the consumer loop runs. -/
def worker_run (env : WorkerEnv) (s : WorkerState) (items : List String) :
    WorkerState :=
  if env.ffmpegOk then run_batch env s items
  else
    { s with messages := s.messages ++ [Msg.error ffmpegAppErrText],
             alive := false }

/-- Worker state after `n` calls to `queue.put` (the loop of
`start_transcribe`, lines 287-288) and before any processing. -/
def initial_state (n : Nat) : WorkerState :=
  { unfinished := n, model := none, initAttempts := 0, alive := true,
    messages := [], files := [], itemIdx := 0 }

/-! ## The drag-and-drop path splitter -/

/-- The character loop of `App._split_dnd_paths` (lines 252-269),
translated step by step: an opening brace enters brace mode and clears
the buffer, a closing brace leaves brace mode and flushes the buffer, a
space outside braces flushes a non-empty buffer, and every other
character is appended to the buffer; a leftover buffer is flushed at the
end. -/
def dnd_scan : List Char → Bool → List Char → List (List Char) → List (List Char)
  | [], _, buf, out => if buf ≠ [] then out ++ [buf] else out
  | c :: rest, inBrace, buf, out =>
      if c = '{' then dnd_scan rest true [] out
      else if c = '}' then dnd_scan rest false [] (out ++ [buf])
      else if c = ' ' ∧ inBrace = false then
        if buf ≠ [] then dnd_scan rest inBrace [] (out ++ [buf])
        else dnd_scan rest inBrace buf out
      else dnd_scan rest inBrace (buf ++ [c]) out

/-- `App._split_dnd_paths` (lines 249-270): run the scan, then keep the
stripped pieces that are non-empty, in order. -/
def split_dnd_paths (data : String) : List String :=
  ((dnd_scan data.data false [] []).map (fun l => pyStrip (String.mk l))).filter
    (fun p => p ≠ "")

/-- Modelled from the claim's words: the same scan with the separator
class abstracted, so that the claim's whitespace-delimited reading and
the space-delimited correction are the two instances below. -/
def dnd_scan_sep (isSep : Char → Prop) [DecidablePred isSep] :
    List Char → Bool → List Char → List (List Char) → List (List Char)
  | [], _, buf, out => if buf ≠ [] then out ++ [buf] else out
  | c :: rest, inBrace, buf, out =>
      if c = '{' then dnd_scan_sep isSep rest true [] out
      else if c = '}' then dnd_scan_sep isSep rest false [] (out ++ [buf])
      else if isSep c ∧ inBrace = false then
        if buf ≠ [] then dnd_scan_sep isSep rest inBrace [] (out ++ [buf])
        else dnd_scan_sep isSep rest inBrace buf out
      else dnd_scan_sep isSep rest inBrace (buf ++ [c]) out

/-- The splitter over an abstract separator class. -/
def split_paths_sep (isSep : Char → Prop) [DecidablePred isSep]
    (data : String) : List String :=
  ((dnd_scan_sep isSep data.data false [] []).map (fun l => pyStrip (String.mk l))).filter
    (fun p => p ≠ "")

/-- Modelled from the claim's words: a whitespace-delimited, optionally
brace-quoted path list, as the claim reads the splitter. -/
def split_dnd_paths_claim (data : String) : List String :=
  split_paths_sep (fun c => c.isWhitespace = true) data

/-! ## The command-line script `transcribe.py` -/

/-- Everything `transcribe.py` observes from outside. -/
structure CliEnv : Type where
  /-- `sys.argv`: the script name followed by the arguments. -/
  argv : List String
  /-- `os.path.exists`. -/
  pathExists : String → Bool
  /-- `os.path.abspath`, a black box over the process working directory. -/
  abspath : String → String
  /-- `shutil.which("ffmpeg")` finds the binary (line 13). -/
  ffmpegOnPath : Bool
  /-- `import whisper` succeeds (line 60). -/
  whisperOk : Bool
  /-- `os.environ.get("WHISPER_MODEL")` (line 66). -/
  whisperEnvModel : Option String
  /-- `whisper.load_model` succeeds (line 68). -/
  loadOk : Bool
  /-- `str(e)` when `whisper.load_model` raises. -/
  loadErr : String
  /-- the folder picker of `pick_output_dir`: `none` when the tkinter
  block raises, `some` the returned string otherwise (the empty string
  on cancel). -/
  dialogDir : Option String
  /-- `model.transcribe(media_path)`: an exception text, or the result
  dictionary's optional `text` entry. -/
  transcribe : String → Except String (Option String)
  /-- `datetime.now().strftime` inside `safe_stem`. -/
  timestamp : String
  /-- `os.makedirs(out_dir, exist_ok=True)` succeeds (line 71). -/
  makedirsOk : String → Bool
  /-- `str(e)` when `os.makedirs` raises. -/
  makedirsErr : String → String

/-- How a run of `transcribe.py` ends: the controlled `sys.exit(1)`, an
uncaught exception, or a normal finish with one transcript written. -/
inductive CliOutcome : Type where
  | exit1 (logs : List String)
  | raised (err : String) (logs : List String)
  | finished (txt_path content : String) (logs : List String)
deriving DecidableEq, Repr

/-- The controlled `sys.exit(1)` outcome. -/
def is_exit1 : CliOutcome → Bool
  | CliOutcome.exit1 _ => true
  | _ => false

/-- The uncaught-exception outcome. -/
def is_raised : CliOutcome → Bool
  | CliOutcome.raised _ _ => true
  | _ => false

/-- First usage line printed on a missing argument (line 47). -/
def usageText1 : String :=
  "Usage:\n  python transcribe.py <video_or_audio_path> [output_folder]"

/-- Second usage line (line 48). -/
def usageText2 : String :=
  "\nTip: You can also drag and drop the file onto the .bat shortcut."

/-- Text printed before `sys.exit(1)` when whisper is missing (line 62). -/
def whisperMissingText : String :=
  "Whisper is not installed. Run:\n  pip install -U openai-whisper"

/-- Source text of the `ensure_ffmpeg` error in the script (lines 14-16). -/
def ffmpegCliErrText : String :=
  "FFmpeg not found. Install it and make sure \x27ffmpeg\x27 is on your PATH."

/-- `sys.argv[1]`, the media path argument (line 51). -/
def cli_arg1 (env : CliEnv) : String := env.argv.getD 1 ""

/-- `pick_output_dir` (lines 18-37): a non-blank second argument wins
(made absolute), else the folder picker result when truthy, else the
default directory (the input's own directory). -/
def pick_output_dir (env : CliEnv) (default_dir : String) : String :=
  if 3 ≤ env.argv.length ∧ pyStrip (env.argv.getD 2 "") ≠ "" then
    env.abspath (env.argv.getD 2 "")
  else
    match env.dialogDir with
    | some d => if d ≠ "" then d else default_dir
    | none => default_dir

/-- `transcribe.py` `main` (lines 45-83): usage check, existence check,
`ensure_ffmpeg` (raises, not exit 1), lazy whisper import (exit 1),
model load (raises), output directory choice, `os.makedirs` (raises),
transcription (raises), transcript write (stripped `text` entry plus one
newline). -/
def cli_main (env : CliEnv) : CliOutcome :=
  if env.argv.length < 2 then CliOutcome.exit1 [usageText1, usageText2]
  else
    let media_path := env.abspath (cli_arg1 env)
    if env.pathExists media_path = false then
      CliOutcome.exit1 ["File not found: " ++ media_path]
    else if env.ffmpegOnPath = false then CliOutcome.raised ffmpegCliErrText []
    else if env.whisperOk = false then CliOutcome.exit1 [whisperMissingText]
    else
      let model_name := env.whisperEnvModel.getD "base"
      let logs := ["[Whisper] Loading model: " ++ model_name ++ " ..."]
      if env.loadOk = false then CliOutcome.raised env.loadErr logs
      else
        let out_dir := pick_output_dir env (dirname media_path)
        if env.makedirsOk out_dir = false then
          CliOutcome.raised (env.makedirsErr out_dir) logs
        else
          let logs := logs ++ ["[Whisper] Transcribing: " ++ media_path]
          match env.transcribe media_path with
          | Except.error e => CliOutcome.raised e logs
          | Except.ok r =>
              let base_out := path_join out_dir (safe_stem media_path env.timestamp)
              let txt_path := base_out ++ ".txt"
              let content := pyStrip (r.getD "") ++ "\n"
              CliOutcome.finished txt_path content
                (logs ++ ["[Done] Transcript saved: " ++ txt_path])

/-! ## Concrete environments used in evaluations and witnesses -/

/-- All paths exist, every `_lazy_init` attempt fails (whisper or torch
missing), nothing else is reached. -/
def envFail : WorkerEnv :=
  { pathExists := fun _ => true, ffmpegOk := true, cudaAvailable := false,
    modelName := "base", initOk := fun _ => false,
    initFailAfterLoadMsg := fun _ => false,
    initErr := fun _ => "No module named torch",
    transcribe := fun _ _ => Except.error "unreachable",
    outdirVar := fun _ => "", timestamp := fun _ => "20250101_000000",
    makedirsOk := fun _ => true, makedirsErr := fun _ => "" }

/-- Everything succeeds; transcription returns padded text. -/
def envOkT : WorkerEnv :=
  { envFail with
    initOk := fun _ => true,
    transcribe := fun _ _ => Except.ok (some " Hello world "),
    outdirVar := fun _ => "/out" }

/-- No path exists. -/
def envMiss : WorkerEnv := { envFail with pathExists := fun _ => false }

/-- The output-directory variable changes between the first and the
second processing step, and is blank from the second step on. -/
def envFresh : WorkerEnv :=
  { envOkT with
    outdirVar := fun i => if i = 0 then "/d1" else "",
    transcribe := fun i _ => Except.ok (some (if i = 0 then "one" else "two")) }

/-- CLI run with a valid argument and an existing file, but whisper
not importable. -/
def envWhisperless : CliEnv :=
  { argv := ["transcribe.py", "a.mp4"], pathExists := fun _ => true,
    abspath := fun p => "/cwd/" ++ p, ffmpegOnPath := true, whisperOk := false,
    whisperEnvModel := none, loadOk := true, loadErr := "",
    dialogDir := none, transcribe := fun _ => Except.ok (some ""),
    timestamp := "20250101_000000", makedirsOk := fun _ => true,
    makedirsErr := fun _ => "" }

/-- CLI run where `whisper.load_model` raises mid-run. -/
def envLoadFail : CliEnv :=
  { envWhisperless with
    whisperOk := true
    loadOk := false
    loadErr := "CUDA out of memory" }

/-- Fully successful CLI run. -/
def envCliOk : CliEnv :=
  { envWhisperless with
    whisperOk := true
    transcribe := fun _ => Except.ok (some " hi ") }

/-! ## Helper lemmas about the worker step -/

theorem finish_item_files (s : WorkerState) (i : Nat) :
    (finish_item s i).files = s.files := by
  unfold finish_item
  rcases h : task_done s.unfinished with _ | u <;> rfl

theorem finish_item_messages (s : WorkerState) (i : Nat) :
    (finish_item s i).messages = s.messages := by
  unfold finish_item
  rcases h : task_done s.unfinished with _ | u <;> rfl

theorem finish_item_model (s : WorkerState) (i : Nat) :
    (finish_item s i).model = s.model := by
  unfold finish_item
  rcases h : task_done s.unfinished with _ | u <;> rfl

theorem finish_item_initAttempts (s : WorkerState) (i : Nat) :
    (finish_item s i).initAttempts = s.initAttempts := by
  unfold finish_item
  rcases h : task_done s.unfinished with _ | u <;> rfl

theorem finish_item_itemIdx (s : WorkerState) (i : Nat) :
    (finish_item s i).itemIdx = i + 1 := by
  unfold finish_item
  rcases h : task_done s.unfinished with _ | u <;> rfl

theorem finish_item_pos (s : WorkerState) (i : Nat) (h : s.unfinished ≠ 0) :
    finish_item s i = { s with unfinished := s.unfinished - 1, itemIdx := i + 1 } := by
  unfold finish_item task_done
  simp [h]

theorem process_media_model (env : WorkerEnv) (s : WorkerState) (path : String)
    (i : Nat) : (process_media env s path i).model = s.model := by
  unfold process_media
  rcases h : env.transcribe i path with e | r <;>
    by_cases hm : env.makedirsOk (pick_outdir env i path) = false <;>
      simp [hm, finish_item_model]

theorem process_media_initAttempts (env : WorkerEnv) (s : WorkerState)
    (path : String) (i : Nat) :
    (process_media env s path i).initAttempts = s.initAttempts := by
  unfold process_media
  rcases h : env.transcribe i path with e | r <;>
    by_cases hm : env.makedirsOk (pick_outdir env i path) = false <;>
      simp [hm, finish_item_initAttempts]

theorem worker_step_skip (env : WorkerEnv) (s : WorkerState) (path : String)
    (hmiss : env.pathExists path = false) (hcnt : 1 ≤ s.unfinished) :
    worker_step env s path =
      { s with messages := s.messages ++ [Msg.skip path],
               unfinished := s.unfinished - 1, itemIdx := s.itemIdx + 1 } := by
  have h0 : ¬ s.unfinished = 0 := by omega
  unfold worker_step task_done
  simp [hmiss, h0]

theorem worker_step_ready (env : WorkerEnv) (s : WorkerState) (path : String)
    (m : Nat) (hmodel : s.model = some m) (hex : env.pathExists path = true) :
    worker_step env s path = process_media env s path s.itemIdx := by
  unfold worker_step
  simp [hex, hmodel]

theorem process_media_ok (env : WorkerEnv) (s : WorkerState) (path : String)
    (i : Nat) (r : Option String)
    (hdir : env.makedirsOk (pick_outdir env i path) = true)
    (htr : env.transcribe i path = Except.ok r) :
    process_media env s path i =
      finish_item
        { s with
          files := s.files ++
            [(path_join (pick_outdir env i path)
                (safe_stem path (env.timestamp i)) ++ ".txt",
              pyStrip (r.getD "") ++ "\n")],
          messages := s.messages ++
            [Msg.transcribing (basename path),
             Msg.done (path_join (pick_outdir env i path)
                (safe_stem path (env.timestamp i)) ++ ".txt")] } i := by
  unfold process_media
  simp [hdir, htr]

theorem worker_step_model_some (env : WorkerEnv) (s : WorkerState) (path : String)
    (m : Nat) (h : s.model = some m) :
    (worker_step env s path).model = some m
      ∧ (worker_step env s path).initAttempts = s.initAttempts := by
  unfold worker_step
  by_cases hex : env.pathExists path = false
  · simp only [hex, if_pos]
    rcases hx : task_done s.unfinished with _ | u <;> simp [hx, h]
  · simp [hex, h, process_media_model, process_media_initAttempts]

theorem run_batch_model_some (env : WorkerEnv) (items : List String) :
    ∀ (s : WorkerState) (m : Nat), s.model = some m →
      (run_batch env s items).model = some m := by
  induction items with
  | nil => intro s m h; exact h
  | cons p rest ih =>
      intro s m h
      unfold run_batch
      by_cases ha : s.alive = true
      · simp only [ha, if_pos]
        exact ih _ m (worker_step_model_some env s p m h).1
      · simp [ha, h]

theorem worker_step_none_attempts (env : WorkerEnv) (s : WorkerState)
    (path : String) (hnone : s.model = none) (hex : env.pathExists path = true) :
    (worker_step env s path).initAttempts = s.initAttempts + 1 := by
  unfold worker_step
  by_cases hk : env.initOk s.initAttempts = true
  · simp [hex, hnone, hk, process_media_initAttempts]
  · have hk2 : env.initOk s.initAttempts = false := by
      revert hk; cases env.initOk s.initAttempts <;> simp
    simp [hex, hnone, hk2]
    split_ifs <;> rfl

theorem worker_step_none_init_ok (env : WorkerEnv) (s : WorkerState)
    (path : String) (hnone : s.model = none) (hex : env.pathExists path = true)
    (hok : env.initOk s.initAttempts = true) :
    (worker_step env s path).model = some s.initAttempts := by
  unfold worker_step
  simp [hex, hnone, hok, process_media_model]

theorem worker_step_none_init_fail (env : WorkerEnv) (s : WorkerState)
    (path : String) (hnone : s.model = none) (hex : env.pathExists path = true)
    (hfail : env.initOk s.initAttempts = false) :
    (worker_step env s path).model = none := by
  unfold worker_step
  simp [hex, hnone, hfail]
  split_ifs <;> rfl

theorem run_batch_nil (env : WorkerEnv) (s : WorkerState) :
    run_batch env s [] = s := rfl

theorem run_batch_cons (env : WorkerEnv) (s : WorkerState) (p : String)
    (rest : List String) :
    run_batch env s (p :: rest) =
      if s.alive then run_batch env (worker_step env s p) rest else s := rfl

theorem worker_step_ok_files (env : WorkerEnv) (s : WorkerState)
    (path : String) (m : Nat) (r : Option String)
    (hmodel : s.model = some m) (hex : env.pathExists path = true)
    (hdir : env.makedirsOk (pick_outdir env s.itemIdx path) = true)
    (htr : env.transcribe s.itemIdx path = Except.ok r) :
    (worker_step env s path).files
      = s.files ++
          [(path_join (pick_outdir env s.itemIdx path)
              (safe_stem path (env.timestamp s.itemIdx)) ++ ".txt",
            pyStrip (r.getD "") ++ "\n")] := by
  rw [worker_step_ready env s path m hmodel hex,
      process_media_ok env s path s.itemIdx r hdir htr,
      finish_item_files]

theorem worker_step_ok_full (env : WorkerEnv) (s : WorkerState) (path : String)
    (m : Nat) (r : Option String)
    (hmodel : s.model = some m) (hex : env.pathExists path = true)
    (hdir : env.makedirsOk (pick_outdir env s.itemIdx path) = true)
    (htr : env.transcribe s.itemIdx path = Except.ok r)
    (hcnt : 1 ≤ s.unfinished) :
    worker_step env s path =
      { s with
        unfinished := s.unfinished - 1,
        itemIdx := s.itemIdx + 1,
        files := s.files ++
          [(path_join (pick_outdir env s.itemIdx path)
              (safe_stem path (env.timestamp s.itemIdx)) ++ ".txt",
            pyStrip (r.getD "") ++ "\n")],
        messages := s.messages ++
          [Msg.transcribing (basename path),
           Msg.done (path_join (pick_outdir env s.itemIdx path)
              (safe_stem path (env.timestamp s.itemIdx)) ++ ".txt")] } := by
  rw [worker_step_ready env s path m hmodel hex,
      process_media_ok env s path s.itemIdx r hdir htr]
  exact finish_item_pos _ _ (show s.unfinished ≠ 0 by omega)

/-! ## Claim theorems -/

/-- C1: the claim says `join()` returns if and only if every submitted
item has reached a terminal state, because the worker marks each item
done exactly once in a finally-equivalent block.  The code violates
this: in the failed-initialization branch `task_done` runs both at line
107 and in the `finally` of line 139, so after submitting two items and
processing only the first (model initialization failing), the
unfinished counter is already zero — `join()` returns while the second
item is still pending — and with a single submitted item the duplicated
call raises `ValueError` inside `finally` and kills the worker thread. -/
theorem c1_double_mark_breaks_join_eval :
    (join_would_return (run_batch envFail (initial_state 2) ["a.mp4"]) = true
        ∧ (run_batch envFail (initial_state 2) ["a.mp4"]).alive = true)
      ∧ (run_batch envFail (initial_state 1) ["a.mp4"]).alive = false := by
  decide

/-- C2: the claim says every submitted valid path gets exactly one
terminal status message.  Under a failing model initialization the code
violates this: with three existing paths submitted, the worker thread
dies from the duplicated `task_done` while processing the second item,
so only two terminal (dependency-error) messages are ever posted and
the third path gets none. -/
theorem c2_third_path_gets_no_terminal_message_eval :
    ((run_batch envFail (initial_state 3) ["a.mp4", "b.mp4", "c.mp4"]).messages
          = [Msg.errDeps, Msg.errDetail "No module named torch",
             Msg.errDeps, Msg.errDetail "No module named torch"]
        ∧ ((run_batch envFail (initial_state 3)
              ["a.mp4", "b.mp4", "c.mp4"]).messages.filter Msg.isTerminal).length
            = 2)
      ∧ (run_batch envFail (initial_state 3) ["a.mp4", "b.mp4", "c.mp4"]).alive
          = false := by
  decide

/-- C3: the claim says that after a failing model initialization the
worker keeps running and each subsequent item independently repeats the
failure report.  The code posts the two failure reports for both items,
but the duplicated `task_done` of the failed-initialization branch
corrupts the counter: while processing the second item the line-107
call raises `ValueError` (logged through the line-136 handler as an
extra error message) and the `finally` call raises again, killing the
worker thread — the loop is not alive afterwards. -/
theorem c3_worker_dies_after_failed_init_eval :
    ((run_batch envFail (initial_state 2) ["a.mp4", "b.mp4"]).messages
          = [Msg.errDeps, Msg.errDetail "No module named torch",
             Msg.errDeps, Msg.errDetail "No module named torch",
             Msg.error taskDoneErrText]
        ∧ (run_batch envFail (initial_state 2) ["a.mp4", "b.mp4"]).model = none)
      ∧ (run_batch envFail (initial_state 2) ["a.mp4", "b.mp4"]).alive = false := by
  decide

/-- C4: a dequeued path that does not exist at processing time yields
exactly one skip message, no file writes, one decrement of the
unfinished counter (the mark-done that lets `join()` return), and the
worker stays alive for the next item — provided the counter still
accounts for the item, which holds whenever no initialization failure
has corrupted it. -/
theorem c4_skip_path_behavior (env : WorkerEnv) (s : WorkerState) (path : String)
    (halive : s.alive = true) (hcnt : 1 ≤ s.unfinished)
    (hmiss : env.pathExists path = false) :
    (worker_step env s path).messages = s.messages ++ [Msg.skip path]
      ∧ (worker_step env s path).files = s.files
      ∧ (worker_step env s path).unfinished = s.unfinished - 1
      ∧ (worker_step env s path).alive = true := by
  rw [worker_step_skip env s path hmiss hcnt]
  exact ⟨rfl, rfl, rfl, halive⟩

theorem c4_skip_path_behavior_witness :
    (worker_step envMiss (initial_state 1) "missing.wav").messages
        = [Msg.skip "missing.wav"]
      ∧ (worker_step envMiss (initial_state 1) "missing.wav").files = []
      ∧ (worker_step envMiss (initial_state 1) "missing.wav").unfinished = 0
      ∧ (worker_step envMiss (initial_state 1) "missing.wav").alive = true := by
  have h := c4_skip_path_behavior envMiss (initial_state 1) "missing.wav"
    rfl (by decide) rfl
  simpa using h

/-- C5: a successfully transcribed item appends exactly one transcript
write, at `<chosen dir>/<stem>_transcript_<timestamp>.txt` where the
chosen directory is the stripped output-directory setting or the input
path directory, and its content is the stripped transcription text
followed by exactly one newline. -/
theorem c5_success_writes_single_transcript (env : WorkerEnv) (s : WorkerState)
    (path : String) (m : Nat) (r : Option String)
    (hmodel : s.model = some m) (hex : env.pathExists path = true)
    (hdir : env.makedirsOk (pick_outdir env s.itemIdx path) = true)
    (htr : env.transcribe s.itemIdx path = Except.ok r) :
    (worker_step env s path).files
      = s.files ++
          [(path_join (pick_outdir env s.itemIdx path)
              (safe_stem path (env.timestamp s.itemIdx)) ++ ".txt",
            pyStrip (r.getD "") ++ "\n")] := by
  exact worker_step_ok_files env s path m r hmodel hex hdir htr

theorem c5_success_writes_single_transcript_witness :
    (worker_step envOkT { initial_state 1 with model := some 0 } "/in/a.mp3").files
      = [("/out/a_transcript_20250101_000000.txt", "Hello world\n")] := by
  have h := c5_success_writes_single_transcript envOkT
    { initial_state 1 with model := some 0 } "/in/a.mp3" 0 (some " Hello world ")
    rfl rfl rfl rfl
  exact h.trans (by decide)

/-- C6: the output-directory setting is read fresh at the start of each
item: in a two-item batch, the first transcript lands in the directory
value read at step i and the second in the value read at step i + 1
(`pick_outdir` falls back to the item's own directory when the stripped
setting is empty). -/
theorem c6_outdir_read_fresh_per_item (env : WorkerEnv) (s : WorkerState)
    (p1 p2 : String) (m : Nat) (r1 r2 : Option String)
    (hmodel : s.model = some m) (halive : s.alive = true) (hcnt : 1 ≤ s.unfinished)
    (hex1 : env.pathExists p1 = true) (hex2 : env.pathExists p2 = true)
    (hd1 : env.makedirsOk (pick_outdir env s.itemIdx p1) = true)
    (hd2 : env.makedirsOk (pick_outdir env (s.itemIdx + 1) p2) = true)
    (ht1 : env.transcribe s.itemIdx p1 = Except.ok r1)
    (ht2 : env.transcribe (s.itemIdx + 1) p2 = Except.ok r2) :
    (run_batch env s [p1, p2]).files
      = s.files ++
          [(path_join (pick_outdir env s.itemIdx p1)
              (safe_stem p1 (env.timestamp s.itemIdx)) ++ ".txt",
            pyStrip (r1.getD "") ++ "\n"),
           (path_join (pick_outdir env (s.itemIdx + 1) p2)
              (safe_stem p2 (env.timestamp (s.itemIdx + 1))) ++ ".txt",
            pyStrip (r2.getD "") ++ "\n")] := by
  rw [run_batch_cons,
      worker_step_ok_full env s p1 m r1 hmodel hex1 hd1 ht1 hcnt]
  set t : WorkerState :=
    { s with
      unfinished := s.unfinished - 1,
      itemIdx := s.itemIdx + 1,
      files := s.files ++
        [(path_join (pick_outdir env s.itemIdx p1)
            (safe_stem p1 (env.timestamp s.itemIdx)) ++ ".txt",
          pyStrip (r1.getD "") ++ "\n")],
      messages := s.messages ++
        [Msg.transcribing (basename p1),
         Msg.done (path_join (pick_outdir env s.itemIdx p1)
            (safe_stem p1 (env.timestamp s.itemIdx)) ++ ".txt")] } with htdef
  have htm : t.model = some m := hmodel
  have hta : t.alive = true := halive
  have htd : env.makedirsOk (pick_outdir env t.itemIdx p2) = true := hd2
  have htt : env.transcribe t.itemIdx p2 = Except.ok r2 := ht2
  rw [if_pos halive, run_batch_cons, if_pos hta, run_batch_nil,
      worker_step_ok_files env t p2 m r2 htm hex2 htd htt]
  simp [htdef]

theorem c6_outdir_read_fresh_per_item_witness :
    (run_batch envFresh { initial_state 2 with model := some 0 }
        ["/in/a.mp4", "/in/b.mp4"]).files
      = [("/d1/a_transcript_20250101_000000.txt", "one\n"),
         ("/in/b_transcript_20250101_000000.txt", "two\n")] := by
  have h := c6_outdir_read_fresh_per_item envFresh
    { initial_state 2 with model := some 0 } "/in/a.mp4" "/in/b.mp4" 0
    (some "one") (some "two") rfl rfl (by decide) rfl rfl rfl rfl rfl rfl
  exact h.trans (by decide)

/-- C8: the model handle is a lazily constructed singleton.  Once the
state holds `some` handle, a step neither changes it nor attempts
initialization again, and a whole batch run keeps it unchanged; while
the handle is still `none`, every processed existing item triggers one
more initialization attempt, a succeeding attempt installs the handle,
and a failing attempt leaves it unconstructed. -/
theorem c8_model_singleton (env : WorkerEnv) (s : WorkerState) (path : String)
    (m : Nat) :
    ((s.model = some m →
        (worker_step env s path).model = some m
          ∧ (worker_step env s path).initAttempts = s.initAttempts)
      ∧ (s.model = none → env.pathExists path = true →
          (worker_step env s path).initAttempts = s.initAttempts + 1)
      ∧ (s.model = none → env.pathExists path = true →
          env.initOk s.initAttempts = true →
          (worker_step env s path).model = some s.initAttempts)
      ∧ (s.model = none → env.pathExists path = true →
          env.initOk s.initAttempts = false →
          (worker_step env s path).model = none))
    ∧ ∀ items : List String, s.model = some m →
        (run_batch env s items).model = some m := by
  refine ⟨⟨?_, ?_, ?_, ?_⟩, ?_⟩
  · intro h; exact worker_step_model_some env s path m h
  · intro h hex; exact worker_step_none_attempts env s path h hex
  · intro h hex hok; exact worker_step_none_init_ok env s path h hex hok
  · intro h hex hfail; exact worker_step_none_init_fail env s path h hex hfail
  · intro items h; exact run_batch_model_some env items s m h

theorem c8_model_singleton_witness :
    (worker_step envOkT { initial_state 1 with model := some 7 } "/in/a.mp3").model
        = some 7
      ∧ (worker_step envOkT (initial_state 1) "/in/a.mp3").model = some 0
      ∧ (worker_step envFail (initial_state 2) "/in/a.mp3").initAttempts = 1
      ∧ (worker_step envFail (initial_state 2) "/in/a.mp3").model = none
      ∧ (run_batch envOkT { initial_state 2 with model := some 7 }
          ["/in/a.mp3", "/in/b.mp3"]).model = some 7 := by
  refine ⟨?_, ?_, ?_, ?_, ?_⟩
  · exact ((c8_model_singleton envOkT { initial_state 1 with model := some 7 }
      "/in/a.mp3" 7).1.1 rfl).1
  · exact (c8_model_singleton envOkT (initial_state 1) "/in/a.mp3" 0).1.2.2.1
      rfl rfl rfl
  · exact (c8_model_singleton envFail (initial_state 2) "/in/a.mp3" 0).1.2.1
      rfl rfl
  · exact (c8_model_singleton envFail (initial_state 2) "/in/a.mp3" 0).1.2.2.2
      rfl rfl rfl
  · exact (c8_model_singleton envOkT { initial_state 2 with model := some 7 }
      "x" 7).2 ["/in/a.mp3", "/in/b.mp3"] rfl

theorem dnd_scan_eq_space_sep (l : List Char) :
    ∀ (b : Bool) (buf : List Char) (out : List (List Char)),
      dnd_scan l b buf out = dnd_scan_sep (fun c => c = ' ') l b buf out := by
  induction l with
  | nil => intro b buf out; rfl
  | cons c rest ih =>
      intro b buf out
      simp only [dnd_scan, dnd_scan_sep]
      split_ifs <;> first | rfl | apply ih

/-- C9 counterexample: a tab between two names is not treated as a
separator by the source splitter, though the claim's
whitespace-delimited reading splits there. -/
theorem c9_whitespace_counterexample :
    split_dnd_paths "a\tb" = ["a\tb"]
      ∧ split_dnd_paths_claim "a\tb" = ["a", "b"]
      ∧ split_dnd_paths "a\tb" ≠ split_dnd_paths_claim "a\tb" := by
  decide

/-- C9 (amended): the splitter parses the drop string as a
space-delimited, optionally brace-quoted path list — only the space
character separates paths outside braces, other whitespace characters
stay inside a path (and are trimmed only at its ends by the final
strip); the result is the non-empty trimmed pieces in order. -/
theorem c9_space_delimited_refinement (data : String) :
    split_dnd_paths data = split_paths_sep (fun c => c = ' ') data := by
  unfold split_dnd_paths split_paths_sep
  rw [dnd_scan_eq_space_sep]

/-- C7 counterexample: with both pre-flight conditions satisfied (an
argument is present and the input file exists) the script still takes
the controlled `sys.exit(1)` path when the whisper import fails, so
`exit 1 exactly on missing argument or missing file` is false. -/
theorem c7_whisper_missing_counterexample :
    is_exit1 (cli_main envWhisperless) = true
      ∧ 2 ≤ envWhisperless.argv.length
      ∧ envWhisperless.pathExists
          (envWhisperless.abspath (cli_arg1 envWhisperless)) = true := by
  decide

/-- C7 (amended): the controlled `sys.exit(1)` outcome happens exactly
on a missing argument, a nonexistent input path, or (with ffmpeg
present) a failing whisper module load; mid-run failures — a missing ffmpeg, a
failing model load, a failing directory creation, or a failing
transcription — propagate as exceptions instead. -/
theorem c7_exit1_characterization :
    (∀ env : CliEnv,
        is_exit1 (cli_main env) = true
          ↔ (env.argv.length < 2
              ∨ (2 ≤ env.argv.length
                  ∧ env.pathExists (env.abspath (cli_arg1 env)) = false)
              ∨ (2 ≤ env.argv.length
                  ∧ env.pathExists (env.abspath (cli_arg1 env)) = true
                  ∧ env.ffmpegOnPath = true ∧ env.whisperOk = false)))
    ∧ ∀ env : CliEnv,
        2 ≤ env.argv.length →
        env.pathExists (env.abspath (cli_arg1 env)) = true →
        env.ffmpegOnPath = true → env.whisperOk = true →
        (env.loadOk = false
          ∨ ∃ e, env.transcribe (env.abspath (cli_arg1 env))
                  = Except.error e) →
        is_raised (cli_main env) = true := by
  constructor
  · intro env
    unfold cli_main
    by_cases h1 : env.argv.length < 2
    · simp [h1, is_exit1]
    · have h1b : 2 ≤ env.argv.length := by omega
      by_cases h2 : env.pathExists (env.abspath (cli_arg1 env)) = false
      · simp [h1, h1b, h2, is_exit1]
      · have h2b : env.pathExists (env.abspath (cli_arg1 env)) = true := by
          revert h2; cases env.pathExists (env.abspath (cli_arg1 env)) <;> simp
        by_cases h3 : env.ffmpegOnPath = false
        · have h3b : ¬ env.ffmpegOnPath = true := by simp [h3]
          simp [h1, h2, h3, h3b, is_exit1]
        · have h3b : env.ffmpegOnPath = true := by
            revert h3; cases env.ffmpegOnPath <;> simp
          by_cases h4 : env.whisperOk = false
          · simp [h1, h1b, h2, h2b, h3, h3b, h4, is_exit1]
          · have h4b : env.whisperOk = true := by
              revert h4; cases env.whisperOk <;> simp
            by_cases h5 : env.loadOk = false
            · simp [h1, h2, h3, h4, h4b, h5, is_exit1]
            · by_cases h6 : env.makedirsOk
                  (pick_output_dir env (dirname (env.abspath (cli_arg1 env)))) = false
              · simp [h1, h2, h3, h4, h4b, h5, h6, is_exit1]
              · rcases htr : env.transcribe (env.abspath (cli_arg1 env)) with e | r <;>
                  simp [h1, h2, h3, h4, h4b, h5, h6, htr, is_exit1]
  · intro env hlen hex hff hwh hmid
    unfold cli_main
    have h1 : ¬ env.argv.length < 2 := by omega
    have h2 : ¬ env.pathExists (env.abspath (cli_arg1 env)) = false := by
      simp [hex]
    have h3 : ¬ env.ffmpegOnPath = false := by simp [hff]
    have h4 : ¬ env.whisperOk = false := by simp [hwh]
    rcases hmid with hload | ⟨e, htr⟩
    · simp [h1, h2, h3, h4, hload, is_raised]
    · by_cases h5 : env.loadOk = false
      · simp [h1, h2, h3, h4, h5, is_raised]
      · by_cases h6 : env.makedirsOk
            (pick_output_dir env (dirname (env.abspath (cli_arg1 env)))) = false
        · simp [h1, h2, h3, h4, h5, h6, is_raised]
        · simp [h1, h2, h3, h4, h5, h6, htr, is_raised]

theorem c7_exit1_characterization_witness :
    is_exit1 (cli_main envWhisperless) = true
      ∧ is_raised (cli_main envLoadFail) = true := by
  constructor
  · exact (c7_exit1_characterization.1 envWhisperless).mpr
      (Or.inr (Or.inr ⟨by decide, rfl, rfl, rfl⟩))
  · exact c7_exit1_characterization.2 envLoadFail (by decide) rfl rfl rfl
      (Or.inl rfl)

theorem dropWhile_head?_not_ws (p : Char → Bool) :
    ∀ (l : List Char) (a : Char), (l.dropWhile p).head? = some a → p a = false := by
  intro l
  induction l with
  | nil => intro a h; simp [List.dropWhile] at h
  | cons x xs ih =>
      intro a h
      by_cases hx : p x = true
      · rw [List.dropWhile_cons_of_pos hx] at h
        exact ih a h
      · rw [List.dropWhile_cons_of_neg hx] at h
        have hxa : x = a := by simpa using h
        subst hxa
        revert hx; cases p x <;> simp

theorem dropWhile_getLast?_eq (p : Char → Bool) :
    ∀ l : List Char, l.dropWhile p ≠ [] →
      (l.dropWhile p).getLast? = l.getLast? := by
  intro l
  induction l with
  | nil => intro h; simp [List.dropWhile] at h
  | cons x xs ih =>
      intro h
      by_cases hx : p x = true
      · rw [List.dropWhile_cons_of_pos hx] at h ⊢
        have hxs : xs ≠ [] := by
          intro he; rw [he] at h; simp [List.dropWhile] at h
        rw [ih h]
        cases xs with
        | nil => exact absurd rfl hxs
        | cons b bs => rw [List.getLast?_cons_cons]
      · rw [List.dropWhile_cons_of_neg hx]

theorem pyStrip_data (t : String) :
    (pyStrip t).data = ((t.data.dropWhile pyWS).reverse.dropWhile pyWS).reverse :=
  rfl

theorem pyStrip_getLast_not_ws (t : String) (c : Char)
    (h : (pyStrip t).data.getLast? = some c) : pyWS c = false := by
  rw [pyStrip_data, List.getLast?_reverse] at h
  exact dropWhile_head?_not_ws pyWS _ c h

theorem pyStrip_head_not_ws (t : String) (c : Char)
    (h : (pyStrip t).data.head? = some c) : pyWS c = false := by
  rw [pyStrip_data, List.head?_reverse] at h
  have hne : (t.data.dropWhile pyWS).reverse.dropWhile pyWS ≠ [] := by
    intro he; rw [he] at h; simp at h
  rw [dropWhile_getLast?_eq pyWS _ hne, List.getLast?_reverse] at h
  exact dropWhile_head?_not_ws pyWS _ c h

theorem pyStrip_newline_getLast (t : String) :
    (pyStrip t ++ "\n").data.getLast? = some '\n' := by
  have hn : ("\n" : String).data = ['\n'] := rfl
  rw [String.data_append, hn]
  exact List.getLast?_concat _

/-- C10: in both writers the transcript content is the stripped `text`
entry of the result (empty when the entry is missing) followed by
exactly one newline: the worker writes a single file with that content,
the finished CLI run carries that content, and a stripped string never
begins or ends with whitespace, so the file holds nothing beyond the
text and the single final newline. -/
theorem c10_transcript_content_stripped_newline :
    (∀ (env : WorkerEnv) (s : WorkerState) (path : String) (m : Nat)
        (r : Option String),
        s.model = some m → env.pathExists path = true →
        env.makedirsOk (pick_outdir env s.itemIdx path) = true →
        env.transcribe s.itemIdx path = Except.ok r →
        ∃ p, (worker_step env s path).files
            = s.files ++ [(p, pyStrip (r.getD "") ++ "\n")])
      ∧ (∀ (env : CliEnv) (r : Option String),
          2 ≤ env.argv.length →
          env.pathExists (env.abspath (cli_arg1 env)) = true →
          env.ffmpegOnPath = true → env.whisperOk = true → env.loadOk = true →
          env.makedirsOk
              (pick_output_dir env (dirname (env.abspath (cli_arg1 env)))) = true →
          env.transcribe (env.abspath (cli_arg1 env)) = Except.ok r →
          ∃ tp logs, cli_main env
              = CliOutcome.finished tp (pyStrip (r.getD "") ++ "\n") logs)
      ∧ ∀ (t : String) (c : Char),
          (pyStrip t ++ "\n").data.getLast? = some '\n'
            ∧ ((pyStrip t).data.head? = some c → pyWS c = false)
            ∧ ((pyStrip t).data.getLast? = some c → pyWS c = false) := by
  refine ⟨?_, ?_, ?_⟩
  · intro env s path m r hmodel hex hdir htr
    exact ⟨_, worker_step_ok_files env s path m r hmodel hex hdir htr⟩
  · intro env r hlen hex hff hwh hload hmk htr
    have h1 : ¬ env.argv.length < 2 := by omega
    have h2 : ¬ env.pathExists (env.abspath (cli_arg1 env)) = false := by
      simp [hex]
    have h3 : ¬ env.ffmpegOnPath = false := by simp [hff]
    have h4 : ¬ env.whisperOk = false := by simp [hwh]
    have h5 : ¬ env.loadOk = false := by simp [hload]
    have h6 : ¬ env.makedirsOk
        (pick_output_dir env (dirname (env.abspath (cli_arg1 env)))) = false := by
      simp [hmk]
    refine ⟨path_join (pick_output_dir env (dirname (env.abspath (cli_arg1 env))))
        (safe_stem (env.abspath (cli_arg1 env)) env.timestamp) ++ ".txt", ?_, ?_⟩
    · exact ["[Whisper] Loading model: " ++ env.whisperEnvModel.getD "base" ++ " ...",
        "[Whisper] Transcribing: " ++ env.abspath (cli_arg1 env),
        "[Done] Transcript saved: "
          ++ (path_join (pick_output_dir env (dirname (env.abspath (cli_arg1 env))))
                (safe_stem (env.abspath (cli_arg1 env)) env.timestamp) ++ ".txt")]
    · unfold cli_main
      simp [h1, h2, h3, h4, h5, h6, htr]
  · intro t c
    exact ⟨pyStrip_newline_getLast t,
           fun h => pyStrip_head_not_ws t c h,
           fun h => pyStrip_getLast_not_ws t c h⟩

theorem c10_transcript_content_stripped_newline_witness :
    (∃ p, (worker_step envOkT { initial_state 1 with model := some 0 }
            "/in/a.mp3").files
        = (initial_state 1).files
            ++ [(p, pyStrip ((some " Hello world ").getD "") ++ "\n")])
      ∧ (∃ tp logs, cli_main envCliOk
          = CliOutcome.finished tp (pyStrip ((some " hi ").getD "") ++ "\n") logs)
      ∧ (pyStrip " x " ++ "\n").data.getLast? = some '\n' := by
  refine ⟨?_, ?_, ?_⟩
  · exact c10_transcript_content_stripped_newline.1 envOkT
      { initial_state 1 with model := some 0 } "/in/a.mp3" 0 (some " Hello world ")
      rfl rfl rfl rfl
  · exact c10_transcript_content_stripped_newline.2.1 envCliOk (some " hi ")
      (by decide) rfl rfl rfl rfl rfl rfl
  · exact (c10_transcript_content_stripped_newline.2.2 " x " 'x').1
